import Mathlib

/-!
Verification development for the Offline Synchronization Hub of the
seanime server (package `offline`).  The Go source of the Hub
(`RetrieveCurrentSnapshot`, `GetCurrentSnapshot`, `UpdateAnimeListStatus`,
`UpdateEntryListData`, `UpdateMangaListStatus`, `SyncListData`) is embedded
shallowly below.  Collaborators that are not part of the analysed source
(the snapshot store, the entry codec, the Go time package) are modelled
from the specification, as indicated in their doc comments.
-/

namespace Offline

/-- The user-editable tracking fields of one media entry
(spec section 3: Progress, Status, Score, StartedAt, CompletedAt).
`Status` is the remote service status enum, carried as a string. -/
structure ListData where
  progress : Int
  status : String
  score : Int
  startedAt : String
  completedAt : String
deriving DecidableEq, Repr

/-- Modelled from the spec: the anime variant of a typed media entry;
it embeds a `ListData`, which the Go struct holds behind a pointer
(hence the `Option`). -/
structure AnimeEntry where
  listData : Option ListData
deriving DecidableEq, Repr

/-- Modelled from the spec: the manga variant of a typed media entry. -/
structure MangaEntry where
  listData : Option ListData
deriving DecidableEq, Repr

/-- Modelled from the spec: the opaque serialized `Value` payload of a
snapshot media entry, which decodes to exactly one of AnimeEntry or
MangaEntry (Entry Codec, spec section 2). -/
inductive EntryValue where
  | animeVal : AnimeEntry → EntryValue
  | mangaVal : MangaEntry → EntryValue
deriving DecidableEq, Repr

/-- One tracked media item within a snapshot (spec section 3).
`createdAt`/`updatedAt` are the per-row timestamps used for change
detection; time is modelled as a natural number. -/
structure SnapshotMediaEntry where
  mediaId : Int
  snapshotId : Nat
  type : String
  value : EntryValue
  createdAt : Nat
  updatedAt : Nat
deriving DecidableEq, Repr

/-- The snapshot row as stored (`snapshotItem` in the sync pass):
identity, plus the `Synced` and `Used` flags. -/
structure SnapshotItem where
  id : Nat
  synced : Bool
  used : Bool
deriving DecidableEq, Repr

/-- The assembled snapshot served by the Hub cache: its store identity
(`DbId`) together with its media entries. -/
structure Snapshot where
  dbId : Nat
  entries : List SnapshotMediaEntry
deriving DecidableEq, Repr

/-- Modelled from the spec: the snapshot Store (external collaborator,
spec section 6).  It holds the latest snapshot row, when one exists, and
the snapshot media entry rows.  Reads are modelled as infallible; a
failing or empty latest-snapshot query are both `none` (the source maps
both to the same "no snapshot found" error). -/
structure Store where
  latest : Option SnapshotItem
  entries : List SnapshotMediaEntry
deriving DecidableEq, Repr

/-- The Hub state relevant to the analysed operations: the offline-mode
flag fixed at construction, the cached current snapshot, and the store. -/
structure HubState where
  isOffline : Bool
  currentSnapshot : Option Snapshot
  store : Store
deriving DecidableEq, Repr

/-- A fuzzy (year, month, day) date as sent to the remote list client
(`anilist.FuzzyDateInput`). -/
structure FuzzyDate where
  year : Int
  month : Int
  day : Int
deriving DecidableEq, Repr

/-- One invocation of the Remote List Client
(`UpdateMediaListEntry(mediaId, status, score, progress, startDate, endDate)`). -/
structure RemoteCall where
  mediaId : Int
  status : String
  score : Int
  progress : Int
  startDate : Option FuzzyDate
  endDate : Option FuzzyDate
deriving DecidableEq, Repr

/-- Observable actions of a Hub operation: mutex acquisition and release,
remote pushes, the refresh-collections callback, and events published to
the event sink. -/
inductive Ev where
  | lockAcquire
  | lockRelease
  | remoteCall : RemoteCall → Ev
  | refreshCollections
  | sendEvent : String → Ev
deriving DecidableEq, Repr

/-- Outcome of a Go function returning `error`: nil error, a non-nil
error with its message, or a runtime panic (nil-pointer dereference). -/
inductive GoRes where
  | ok
  | fail : String → GoRes
  | panicked
deriving DecidableEq, Repr

namespace OfflineDb

/-- Modelled from the spec: `offlineDb.GetLatestSnapshot` returns the
latest snapshot row, or nothing. -/
def GetLatestSnapshot (s : Store) : Option SnapshotItem :=
  s.latest

/-- Modelled from the spec: `offlineDb.GetSnapshotMediaEntries` returns
all media entry rows of the given snapshot, in store order. -/
def GetSnapshotMediaEntries (s : Store) (snapshotId : Nat) : List SnapshotMediaEntry :=
  s.entries.filter (fun e => e.snapshotId == snapshotId)

/-- Modelled from the spec: `offlineDb.GetSnapshotMediaEntry` returns the
first media entry row matching the media id within the given snapshot. -/
def GetSnapshotMediaEntry (s : Store) (mediaId : Int) (snapshotId : Nat) :
    Option SnapshotMediaEntry :=
  s.entries.find? (fun e => e.mediaId == mediaId && e.snapshotId == snapshotId)

/-- Modelled from the spec: persisting an updated entry row stamps a
strictly newer `UpdatedAt` (any local mutation must leave `UpdatedAt`
strictly greater than `CreatedAt`, spec section 3). -/
def stampUpdated (e : SnapshotMediaEntry) : SnapshotMediaEntry :=
  { e with updatedAt := max e.createdAt e.updatedAt + 1 }

/-- Modelled from the spec: the row replacement performed by
`offlineDb.UpdateSnapshotMediaEntryT` — the first row with the same
media id and snapshot id is overwritten. -/
def replaceEntry (e : SnapshotMediaEntry) : List SnapshotMediaEntry → List SnapshotMediaEntry
  | [] => []
  | x :: xs =>
    if x.mediaId == e.mediaId && x.snapshotId == e.snapshotId then
      stampUpdated e :: xs
    else
      x :: replaceEntry e xs

/-- Modelled from the spec: `offlineDb.UpdateSnapshotMediaEntryT`
persists the given entry row back into the store. -/
def UpdateSnapshotMediaEntryT (s : Store) (e : SnapshotMediaEntry) : Store :=
  { s with entries := replaceEntry e s.entries }

/-- Modelled from the spec: `offlineDb.DeleteSnapshot` deletes the
snapshot row and, transitively, all of its media entry rows
(spec section 4.2, step 5). -/
def DeleteSnapshot (s : Store) (snapshotId : Nat) : Store :=
  { latest :=
      match s.latest with
      | some it => if it.id == snapshotId then none else some it
      | none => none
    entries := s.entries.filter (fun e => e.snapshotId != snapshotId) }

end OfflineDb

/-- `SnapshotMediaEntry.GetAnimeEntry`: modelled from the spec — the
Entry Codec decodes the opaque `Value` to the anime variant, yielding
nothing when the payload is not an anime entry. -/
def SnapshotMediaEntry.GetAnimeEntry (se : SnapshotMediaEntry) : Option AnimeEntry :=
  match se.value with
  | .animeVal e => some e
  | _ => none

/-- `SnapshotMediaEntry.GetMangaEntry`: modelled from the spec — the
Entry Codec decodes the opaque `Value` to the manga variant. -/
def SnapshotMediaEntry.GetMangaEntry (se : SnapshotMediaEntry) : Option MangaEntry :=
  match se.value with
  | .mangaVal e => some e
  | _ => none

/-- Modelled from the spec (section 4.2, step 3a): decoding a snapshot
media entry by its `Type` tag yields the typed entry ListData, or
nothing, in which case the sync pass skips the entry. -/
def decodeListData (se : SnapshotMediaEntry) : Option ListData :=
  match se.type with
  | "anime" =>
    match se.GetAnimeEntry with
    | some e => e.listData
    | none => none
  | "manga" =>
    match se.GetMangaEntry with
    | some e => e.listData
    | none => none
  | _ => none

/-- Numeric value of a decimal digit character. -/
def digitVal (c : Char) : Option Nat :=
  if c.isDigit then some (c.toNat - 48) else none

/-- Two decimal digit characters as a number. -/
def twoDigits (a b : Char) : Option Nat := do
  let x ← digitVal a
  let y ← digitVal b
  pure (10 * x + y)

/-- Gregorian leap year rule. -/
def isLeapYear (y : Nat) : Bool :=
  (y % 4 == 0 && y % 100 != 0) || (y % 400 == 0)

/-- Number of days of a month in a given year. -/
def daysInMonth (y m : Nat) : Nat :=
  if m == 2 then (if isLeapYear y then 29 else 28)
  else if m == 4 || m == 6 || m == 9 || m == 11 then 30
  else 31

/-- Drops a leading run of decimal digits. -/
def dropDigits : List Char → List Char
  | c :: cs => if c.isDigit then dropDigits cs else c :: cs
  | [] => []

/-- Accepts the RFC3339 zone suffix: the letter Z, or a numeric offset
sign, two digit hours, a colon and two digit minutes. -/
def validZone : List Char → Bool
  | ['Z'] => true
  | [s, h1, h2, ':', m1, m2] =>
    (s == '+' || s == '-') &&
      (match twoDigits h1 h2, twoDigits m1 m2 with
       | some hh, some mm => decide (hh ≤ 23) && decide (mm ≤ 59)
       | _, _ => false)
  | _ => false

/-- Accepts an optional fractional second (a dot and at least one digit)
followed by the zone suffix. -/
def validFracZone : List Char → Bool
  | '.' :: rest =>
    match rest with
    | c :: _ => c.isDigit && validZone (dropDigits rest)
    | [] => false
  | rest => validZone rest

/-- Modelled from the spec: the Go standard library
`time.Parse(time.RFC3339, s)` restricted to the data used by the sync
pass — on success the year, month and day literally written in the
timestamp (`Year()`, `Month()`, `Day()` of the parsed time).  The parser
demands `YYYY-MM-DDThh:mm:ss`, an optional fractional second, and a zone,
and validates all calendar and clock ranges. -/
def parseRFC3339 (s : String) : Option FuzzyDate :=
  match s.data with
  | y1 :: y2 :: y3 :: y4 :: '-' :: mo1 :: mo2 :: '-' :: d1 :: d2 :: 'T' ::
      h1 :: h2 :: ':' :: mi1 :: mi2 :: ':' :: s1 :: s2 :: rest =>
    match twoDigits y1 y2, twoDigits y3 y4, twoDigits mo1 mo2, twoDigits d1 d2,
        twoDigits h1 h2, twoDigits mi1 mi2, twoDigits s1 s2 with
    | some yHi, some yLo, some mo, some d, some hh, some mi, some ss =>
      let y := 100 * yHi + yLo
      if (1 ≤ mo ∧ mo ≤ 12 ∧ 1 ≤ d ∧ d ≤ daysInMonth y mo ∧
          hh ≤ 23 ∧ mi ≤ 59 ∧ ss ≤ 59) ∧ validFracZone rest = true then
        some ⟨(y : Int), (mo : Int), (d : Int)⟩
      else
        none
    | _, _, _, _, _, _, _ => none
  | _ => none

/-- The arguments of the remote push built for one candidate entry in
the sync loop: the score is multiplied by 10 at push time, and the
start and end dates are the parsed `StartedAt`/`CompletedAt` strings,
omitted when empty or unparseable. -/
def mkCall (se : SnapshotMediaEntry) (ld : ListData) : RemoteCall :=
  { mediaId := se.mediaId
    status := ld.status
    score := ld.score * 10
    progress := ld.progress
    startDate := if ld.startedAt != "" then parseRFC3339 ld.startedAt else none
    endDate := if ld.completedAt != "" then parseRFC3339 ld.completedAt else none }

/-- The entry loop of `SyncListData`: for each candidate, decode its
list data (skipping the entry when the decode yields nothing), build the
push arguments, and invoke the remote client; `errI` is overwritten by
the result of every performed push.  `remote i` is the error result of
the i-th performed push. -/
def syncLoop (remote : Nat → Option String) :
    List SnapshotMediaEntry → Nat → Option String → Option String × List RemoteCall
  | [], _, errI => (errI, [])
  | se :: rest, idx, errI =>
    match decodeListData se with
    | none => syncLoop remote rest idx errI
    | some ld =>
      let r := syncLoop remote rest (idx + 1) (remote idx)
      (r.1, mkCall se ld :: r.2)

/-- `Hub.SyncListData` (source lines 331-450).  Returns the Go error
value (none is a nil error), the Hub state after the pass, and the trace
of observable actions.  The source acquires no mutex in this operation.
After the loop, when `errI` is non-nil, the source logs and returns the
variable `err` — which is necessarily nil at that point — and skips the
snapshot deletion and the refresh events. -/
def Hub.SyncListData (h : HubState) (remote : Nat → Option String) :
    Option String × HubState × List Ev :=
  if h.isOffline = true then (none, h, [])
  else
    match OfflineDb.GetLatestSnapshot h.store with
    | none => (some "no snapshot found", h, [])
    | some snapshotItem =>
      if snapshotItem.synced = true then (some "data already synced", h, [])
      else if snapshotItem.used = false then (some "snapshot not used", h, [])
      else
        let snapshotEntries := OfflineDb.GetSnapshotMediaEntries h.store snapshotItem.id
        let updatedSnapshotEntries :=
          snapshotEntries.filter (fun se => se.createdAt != se.updatedAt)
        if updatedSnapshotEntries.isEmpty then (none, h, [])
        else
          let res := syncLoop remote updatedSnapshotEntries 0 none
          match res.1 with
          | some _ =>
            -- source: logs with the nil err value and returns err, not errI
            (none, h, res.2.map Ev.remoteCall)
          | none =>
            (none, { h with store := OfflineDb.DeleteSnapshot h.store snapshotItem.id },
              res.2.map Ev.remoteCall ++
                [Ev.refreshCollections, Ev.sendEvent "RefreshedAnilistCollection",
                  Ev.sendEvent "RefreshedAnilistMangaCollection"])

/-- Extracts the remote pushes of a trace. -/
def remoteCallsOf (tr : List Ev) : List RemoteCall :=
  tr.filterMap (fun e =>
    match e with
    | .remoteCall c => some c
    | _ => none)

/-- The trace of an operation whose whole body runs between the mutex
acquisition and the deferred release. -/
def lockTrace : List Ev := [Ev.lockAcquire, Ev.lockRelease]

/-- Modelled from the spec: `Hub.GetLatestSnapshot(true)` assembles the
current snapshot view from the Store — the latest snapshot row together
with its media entries (spec section 4.1, lazy load and unconditional
reload paths). -/
def Hub.GetLatestSnapshot (s : Store) : Option Snapshot :=
  (OfflineDb.GetLatestSnapshot s).map
    (fun it => ⟨it.id, OfflineDb.GetSnapshotMediaEntries s it.id⟩)

/-- `Hub.GetCurrentSnapshot` (source lines 113-121): returns the cache
without loading; the whole body is guarded by the mutex. -/
def Hub.GetCurrentSnapshot (h : HubState) : Option Snapshot × List Ev :=
  (h.currentSnapshot, lockTrace)

/-- Body of `Hub.RetrieveCurrentSnapshot` (source lines 98-111): returns
the cache, lazily populating it from the latest store snapshot on a
cache miss. -/
def Hub.RetrieveCurrentSnapshotBody (h : HubState) : Option Snapshot × HubState :=
  match h.currentSnapshot with
  | some s => (some s, h)
  | none =>
    match Hub.GetLatestSnapshot h.store with
    | none => (none, h)
    | some ret => (some ret, { h with currentSnapshot := some ret })

/-- `Hub.RetrieveCurrentSnapshot`, with the mutex held for the whole
body. -/
def Hub.RetrieveCurrentSnapshot (h : HubState) : Option Snapshot × HubState × List Ev :=
  let r := Hub.RetrieveCurrentSnapshotBody h
  (r.1, r.2, lockTrace)

/-- The shared load-if-absent step of the update operations (source
lines 133-140 and analogues): when the cache is empty, load the latest
snapshot from the Store, failing with "snapshot not found". -/
def Hub.ensureSnapshot (h : HubState) : Option (HubState × Snapshot) :=
  match h.currentSnapshot with
  | some s => some (h, s)
  | none =>
    match Hub.GetLatestSnapshot h.store with
    | none => none
    | some ret => some ({ h with currentSnapshot := some ret }, ret)

/-- The shared tail of the update operations (source lines 163-169 and
analogues): unconditionally reload the cache from the Store after the
write, propagating a reload failure. -/
def Hub.reloadTail (h : HubState) : GoRes × HubState :=
  match Hub.GetLatestSnapshot h.store with
  | none => (.fail "snapshot not found", h)
  | some ret => (.ok, { h with currentSnapshot := some ret })

/-- Body of `Hub.UpdateAnimeListStatus` (source lines 123-174): ensure a
cached snapshot, fetch the entry row for the media id, decode the anime
entry (failing with "anime entry not found" when the decode yields nil),
set `Progress` and `Status` on its ListData, re-encode into `Value`,
persist the row, then reload the cache.  Setting a field of a nil
ListData is a nil-pointer dereference, i.e. a panic. -/
def Hub.UpdateAnimeListStatusBody (h : HubState) (mediaId progress : Int)
    (status : String) : GoRes × HubState :=
  match Hub.ensureSnapshot h with
  | none => (.fail "snapshot not found", h)
  | some (h1, snap) =>
    match OfflineDb.GetSnapshotMediaEntry h1.store mediaId snap.dbId with
    | none => (.fail "record not found", h1)
    | some snapshotEntry =>
      match snapshotEntry.GetAnimeEntry with
      | none => (.fail "anime entry not found", h1)
      | some animeEntry =>
        match animeEntry.listData with
        | none => (.panicked, h1)
        | some ld =>
          let ld1 := { ld with progress := progress, status := status }
          let se1 := { snapshotEntry with value := .animeVal ⟨some ld1⟩ }
          Hub.reloadTail { h1 with store := OfflineDb.UpdateSnapshotMediaEntryT h1.store se1 }

/-- `Hub.UpdateAnimeListStatus`, with the mutex held for the whole body. -/
def Hub.UpdateAnimeListStatus (h : HubState) (mediaId progress : Int)
    (status : String) : GoRes × HubState × List Ev :=
  let r := Hub.UpdateAnimeListStatusBody h mediaId progress status
  (r.1, r.2, lockTrace)

/-- Body of `Hub.UpdateMangaListStatus` (source lines 276-328), the
manga analogue of the anime update. -/
def Hub.UpdateMangaListStatusBody (h : HubState) (mediaId progress : Int)
    (status : String) : GoRes × HubState :=
  match Hub.ensureSnapshot h with
  | none => (.fail "snapshot not found", h)
  | some (h1, snap) =>
    match OfflineDb.GetSnapshotMediaEntry h1.store mediaId snap.dbId with
    | none => (.fail "record not found", h1)
    | some snapshotEntry =>
      match snapshotEntry.GetMangaEntry with
      | none => (.fail "manga entry not found", h1)
      | some mangaEntry =>
        match mangaEntry.listData with
        | none => (.panicked, h1)
        | some ld =>
          let ld1 := { ld with progress := progress, status := status }
          let se1 := { snapshotEntry with value := .mangaVal ⟨some ld1⟩ }
          Hub.reloadTail { h1 with store := OfflineDb.UpdateSnapshotMediaEntryT h1.store se1 }

/-- `Hub.UpdateMangaListStatus`, with the mutex held for the whole body. -/
def Hub.UpdateMangaListStatus (h : HubState) (mediaId progress : Int)
    (status : String) : GoRes × HubState × List Ev :=
  let r := Hub.UpdateMangaListStatusBody h mediaId progress status
  (r.1, r.2, lockTrace)

/-- Application of the optional fields of `UpdateEntryListData` to the
decoded ListData (source lines 212-226 and 239-253): each present field
is applied independently, absent fields are untouched.  The outer
`Option` is a panic marker: when the ListData is nil and at least one
field is present, the first field assignment is a nil-pointer
dereference. -/
def applyListDataFields (ld : Option ListData) (status : Option String)
    (score progress : Option Int) (startDate endDate : Option String) :
    Option (Option ListData) :=
  match ld with
  | some l =>
    some (some { l with
      progress := progress.getD l.progress
      status := status.getD l.status
      score := score.getD l.score
      startedAt := startDate.getD l.startedAt
      completedAt := endDate.getD l.completedAt })
  | none =>
    if progress.isNone && status.isNone && score.isNone &&
        startDate.isNone && endDate.isNone then
      some none
    else
      none

/-- Body of `Hub.UpdateEntryListData` (source lines 176-274).  The
operation logs the dereferenced media id before anything else, so a nil
`mediaId` is a panic.  The `t` string selects the typed decode path;
any value other than "anime" and "manga" falls through the switch and
only the cache reload runs. -/
def Hub.UpdateEntryListDataBody (h : HubState) (mediaId : Option Int)
    (status : Option String) (score progress : Option Int)
    (startDate endDate : Option String) (t : String) : GoRes × HubState :=
  match mediaId with
  | none => (.panicked, h)
  | some mid =>
    match Hub.ensureSnapshot h with
    | none => (.fail "snapshot not found", h)
    | some (h1, snap) =>
      match OfflineDb.GetSnapshotMediaEntry h1.store mid snap.dbId with
      | none => (.fail "record not found", h1)
      | some snapshotEntry =>
        match t with
        | "anime" =>
          match snapshotEntry.GetAnimeEntry with
          | none => (.fail "entry not found", h1)
          | some entry =>
            match applyListDataFields entry.listData status score progress startDate endDate with
            | none => (.panicked, h1)
            | some ld1 =>
              let se1 := { snapshotEntry with value := .animeVal ⟨ld1⟩ }
              Hub.reloadTail { h1 with store := OfflineDb.UpdateSnapshotMediaEntryT h1.store se1 }
        | "manga" =>
          match snapshotEntry.GetMangaEntry with
          | none => (.fail "entry not found", h1)
          | some entry =>
            match applyListDataFields entry.listData status score progress startDate endDate with
            | none => (.panicked, h1)
            | some ld1 =>
              let se1 := { snapshotEntry with value := .mangaVal ⟨ld1⟩ }
              Hub.reloadTail { h1 with store := OfflineDb.UpdateSnapshotMediaEntryT h1.store se1 }
        | _ => Hub.reloadTail h1

/-- `Hub.UpdateEntryListData`, with the mutex held for the whole body. -/
def Hub.UpdateEntryListData (h : HubState) (mediaId : Option Int)
    (status : Option String) (score progress : Option Int)
    (startDate endDate : Option String) (t : String) : GoRes × HubState × List Ev :=
  let r := Hub.UpdateEntryListDataBody h mediaId status score progress startDate endDate t
  (r.1, r.2, lockTrace)

/-- The remote pushes generated by one run of the sync loop over a list
of candidate entries: one push per candidate whose decode yields list
data, in order. -/
def pushCalls (l : List SnapshotMediaEntry) : List RemoteCall :=
  l.filterMap (fun se => (decodeListData se).map (mkCall se))

/-- The candidate filter of the sync pass: the media entries of a
snapshot whose `CreatedAt` differs from their `UpdatedAt`. -/
def syncCandidates (s : Store) (snapshotId : Nat) : List SnapshotMediaEntry :=
  (OfflineDb.GetSnapshotMediaEntries s snapshotId).filter
    (fun se => se.createdAt != se.updatedAt)

/-- Sample list data: progress 5, status CURRENT, score 7, no dates. -/
def ldSample : ListData := ⟨5, "CURRENT", 7, "", ""⟩

/-- Sample modified anime entry of snapshot 1 for media id 100. -/
def eAnime : SnapshotMediaEntry := ⟨100, 1, "anime", .animeVal ⟨some ldSample⟩, 0, 1⟩

/-- Sample modified manga entry of snapshot 1 for media id 200. -/
def eManga : SnapshotMediaEntry := ⟨200, 1, "manga", .mangaVal ⟨some ⟨3, "PAUSED", 4, "", ""⟩⟩, 0, 2⟩

/-- Sample modified anime entry whose decode yields no list data. -/
def eNilData : SnapshotMediaEntry := ⟨100, 1, "anime", .animeVal ⟨none⟩, 0, 1⟩

/-- Sample latest snapshot row: used and not yet synced. -/
def itSample : SnapshotItem := ⟨1, false, true⟩

/-- Sample list data with a well-formed start date and a malformed
completion date. -/
def ldDates : ListData := ⟨5, "CURRENT", 7, "2022-05-01T00:00:00Z", "not-a-date"⟩

/-- Sample modified anime entry carrying `ldDates`. -/
def eDates : SnapshotMediaEntry := ⟨100, 1, "anime", .animeVal ⟨some ldDates⟩, 0, 1⟩

/-- The entry row produced by a successful status update: the stored
list data with the new progress and status (score and dates untouched),
re-encoded into the typed value, with the row timestamp restamped by the
store. -/
def updatedStatusEntry (isManga : Bool) (se : SnapshotMediaEntry) (ld : ListData)
    (progress : Int) (status : String) : SnapshotMediaEntry :=
  { se with
    value :=
      (if isManga then
        EntryValue.mangaVal ⟨some { ld with progress := progress, status := status }⟩
      else
        EntryValue.animeVal ⟨some { ld with progress := progress, status := status }⟩),
    updatedAt := max se.createdAt se.updatedAt + 1 }

/-- A Hub about to sync one modified anime entry. -/
def hubOne : HubState := ⟨false, none, ⟨some itSample, [eAnime]⟩⟩

/-- A Hub about to sync one modified anime and one modified manga entry. -/
def hubTwo : HubState := ⟨false, none, ⟨some itSample, [eAnime, eManga]⟩⟩

/-- A Hub whose only modified entry decodes to no list data. -/
def hubNilData : HubState := ⟨false, none, ⟨some itSample, [eNilData]⟩⟩

/-- A remote client that fails every push. -/
def remoteFailAll : Nat → Option String := fun _ => some "network error"

/-- A remote client that fails the first push and accepts the rest. -/
def remoteFailFirst : Nat → Option String := fun i => if i == 0 then some "network error" else none

/-- A remote client that accepts every push. -/
def remoteOkAll : Nat → Option String := fun _ => none

/-! Helper lemmas about the sync loop and traces. -/

theorem syncLoop_calls (remote : Nat → Option String) (l : List SnapshotMediaEntry)
    (idx : Nat) (e0 : Option String) :
    (syncLoop remote l idx e0).2 = pushCalls l := by
  induction l generalizing idx e0 with
  | nil => rfl
  | cons se rest ih =>
    cases hd : decodeListData se with
    | none => simp [syncLoop, hd, pushCalls, List.filterMap_cons, ih idx e0, pushCalls]
    | some ld => simp [syncLoop, hd, pushCalls, List.filterMap_cons, ih (idx + 1) (remote idx)]

theorem syncLoop_none (l : List SnapshotMediaEntry) (idx : Nat) :
    (syncLoop (fun _ => none) l idx none).1 = none := by
  induction l generalizing idx with
  | nil => rfl
  | cons se rest ih =>
    cases hd : decodeListData se with
    | none => simp [syncLoop, hd, ih idx]
    | some ld => simp [syncLoop, hd, ih (idx + 1)]

theorem remoteCallsOf_map (l : List RemoteCall) :
    remoteCallsOf (l.map Ev.remoteCall) = l := by
  induction l with
  | nil => rfl
  | cons c rest ih => simp [remoteCallsOf, List.filterMap_cons] at ih ⊢; exact ih

theorem remoteCallsOf_append (a b : List Ev) :
    remoteCallsOf (a ++ b) = remoteCallsOf a ++ remoteCallsOf b := by
  simp [remoteCallsOf, List.filterMap_append]

theorem sync_trace_calls (cs : Option Snapshot) (sid : Nat)
    (entries : List SnapshotMediaEntry) (remote : Nat → Option String) :
    remoteCallsOf (Hub.SyncListData ⟨false, cs, ⟨some ⟨sid, false, true⟩, entries⟩⟩ remote).2.2 =
      pushCalls (syncCandidates ⟨some ⟨sid, false, true⟩, entries⟩ sid) := by
  unfold Hub.SyncListData
  simp only [OfflineDb.GetLatestSnapshot]
  by_cases hE : ((OfflineDb.GetSnapshotMediaEntries ⟨some ⟨sid, false, true⟩, entries⟩ sid).filter
      (fun se => se.createdAt != se.updatedAt)).isEmpty = true
  · rw [List.isEmpty_iff] at hE
    simp [hE, syncCandidates, remoteCallsOf, pushCalls]
  · simp only [syncCandidates]
    cases hres : (syncLoop remote
        ((OfflineDb.GetSnapshotMediaEntries ⟨some ⟨sid, false, true⟩, entries⟩ sid).filter
          (fun se => se.createdAt != se.updatedAt)) 0 none).1 with
    | none =>
      simp only [hE, hres, Bool.false_eq_true, if_false, List.isEmpty_eq_true,
        Bool.true_eq_false, Bool.false_eq_true, if_true]
      rw [remoteCallsOf_append, remoteCallsOf_map, syncLoop_calls]
      simp [remoteCallsOf]
    | some e =>
      simp only [hE, hres, Bool.false_eq_true, if_false, List.isEmpty_eq_true,
        Bool.true_eq_false, Bool.false_eq_true, if_true]
      rw [remoteCallsOf_map, syncLoop_calls]

theorem mem_pushCalls_candidates {c : RemoteCall} {s : Store} {sid : Nat}
    (hc : c ∈ pushCalls (syncCandidates s sid)) :
    ∃ se, se ∈ s.entries ∧ ∃ ld, decodeListData se = some ld ∧
      se.createdAt ≠ se.updatedAt ∧ c = mkCall se ld := by
  rw [pushCalls, List.mem_filterMap] at hc
  obtain ⟨se, hse, hmap⟩ := hc
  rw [Option.map_eq_some'] at hmap
  obtain ⟨ld, hld, hcall⟩ := hmap
  rw [syncCandidates, List.mem_filter] at hse
  obtain ⟨hse1, hq⟩ := hse
  rw [OfflineDb.GetSnapshotMediaEntries, List.mem_filter] at hse1
  exact ⟨se, hse1.1, ld, hld, bne_iff_ne.mp hq, hcall.symm⟩

theorem sync_calls_sound (h : HubState) (remote : Nat → Option String) :
    ∀ c ∈ remoteCallsOf (Hub.SyncListData h remote).2.2,
      ∃ se, se ∈ h.store.entries ∧ ∃ ld, decodeListData se = some ld ∧
        se.createdAt ≠ se.updatedAt ∧ c = mkCall se ld := by
  intro c hc
  simp only [Hub.SyncListData] at hc
  split at hc
  · simp [remoteCallsOf] at hc
  split at hc
  · simp [remoteCallsOf] at hc
  split at hc
  · simp [remoteCallsOf] at hc
  split at hc
  · simp [remoteCallsOf] at hc
  split at hc
  · simp [remoteCallsOf] at hc
  split at hc
  · rw [remoteCallsOf_map, syncLoop_calls] at hc
    exact mem_pushCalls_candidates hc
  · rw [remoteCallsOf_append, remoteCallsOf_map, syncLoop_calls] at hc
    simp only [remoteCallsOf, List.filterMap, List.append_nil] at hc
    exact mem_pushCalls_candidates hc

theorem sync_entries_subset (h : HubState) (remote : Nat → Option String) :
    ∀ se ∈ (Hub.SyncListData h remote).2.1.store.entries, se ∈ h.store.entries := by
  intro se hse
  simp only [Hub.SyncListData] at hse
  split at hse
  · exact hse
  split at hse
  · exact hse
  split at hse
  · exact hse
  split at hse
  · exact hse
  split at hse
  · exact hse
  split at hse
  · exact hse
  · simp only [OfflineDb.DeleteSnapshot] at hse
    exact List.mem_of_mem_filter hse

theorem find_append_first {α : Type} (p : α → Bool) (pre post : List α) (se : α)
    (hpre : pre.all (fun x => !p x) = true) (hse : p se = true) :
    (pre ++ se :: post).find? p = some se := by
  induction pre with
  | nil => simp [List.find?_cons_of_pos, hse]
  | cons x xs ih =>
    rw [List.all_cons, Bool.and_eq_true] at hpre
    have hx := hpre.1
    rw [Bool.not_eq_true'] at hx
    simpa [List.find?_cons_of_neg, hx] using ih hpre.2

theorem replaceEntry_append (e : SnapshotMediaEntry) (pre post : List SnapshotMediaEntry)
    (se : SnapshotMediaEntry)
    (hpre : pre.all (fun x => !(x.mediaId == e.mediaId && x.snapshotId == e.snapshotId)) = true)
    (hse : (se.mediaId == e.mediaId && se.snapshotId == e.snapshotId) = true) :
    OfflineDb.replaceEntry e (pre ++ se :: post) = pre ++ OfflineDb.stampUpdated e :: post := by
  induction pre with
  | nil => simp [OfflineDb.replaceEntry, hse]
  | cons x xs ih =>
    rw [List.all_cons, Bool.and_eq_true] at hpre
    have hx := hpre.1
    rw [Bool.not_eq_true'] at hx
    simp [OfflineDb.replaceEntry, hx, ih hpre.2]

theorem reloadTail_ne_panicked (h : HubState) : (Hub.reloadTail h).1 ≠ GoRes.panicked := by
  unfold Hub.reloadTail
  split <;> simp

theorem applyListDataFields_all_none (ld : Option ListData) :
    applyListDataFields ld none none none none none = some ld := by
  cases ld <;> rfl

theorem sync_trace_shape (h : HubState) (remote : Nat → Option String) (e : Ev)
    (he : e ∈ (Hub.SyncListData h remote).2.2) :
    e = Ev.refreshCollections ∨ (∃ c, e = Ev.remoteCall c) ∨ (∃ n, e = Ev.sendEvent n) := by
  simp only [Hub.SyncListData] at he
  split at he
  · simp at he
  split at he
  · simp at he
  split at he
  · simp at he
  split at he
  · simp at he
  split at he
  · simp at he
  split at he
  · rw [List.mem_map] at he
    obtain ⟨c, _, hc⟩ := he
    exact Or.inr (Or.inl ⟨c, hc.symm⟩)
  · rw [List.mem_append] at he
    rcases he with he | he
    · rw [List.mem_map] at he
      obtain ⟨c, _, hc⟩ := he
      exact Or.inr (Or.inl ⟨c, hc.symm⟩)
    · rcases he with _ | ⟨_, he⟩
      · exact Or.inl rfl
      rcases he with _ | ⟨_, he⟩
      · exact Or.inr (Or.inr ⟨"RefreshedAnilistCollection", rfl⟩)
      rcases he with _ | ⟨_, he⟩
      · exact Or.inr (Or.inr ⟨"RefreshedAnilistMangaCollection", rfl⟩)
      · exact absurd he (List.not_mem_nil e)

/-! The claims. -/

/-- Claim C1: behaviour of the code at the failing input.  A pass whose
single candidate push fails returns a nil error — after the loop the
source returns the variable err, which is provably nil there, instead of
errI — while keeping the snapshot and entries untouched and publishing
nothing; and because errI holds only the result of the most recent push,
a failed push followed by a successful one even takes the full success
path: the snapshot is deleted and both refresh events fire. -/
theorem C1_failed_push_reports_success :
    Hub.SyncListData hubOne remoteFailAll =
      (none, hubOne, [Ev.remoteCall ⟨100, "CURRENT", 70, 5, none, none⟩]) ∧
    (Hub.SyncListData hubTwo remoteFailFirst).1 = none ∧
    (Hub.SyncListData hubTwo remoteFailFirst).2.1.store.latest = none ∧
    Ev.sendEvent "RefreshedAnilistCollection" ∈ (Hub.SyncListData hubTwo remoteFailFirst).2.2 := by
  decide

/-- Claim C2, counterexample: a snapshot entry whose CreatedAt differs
from its UpdatedAt but whose decode yields no list data is a candidate,
yet the pass performs zero remote calls — refuting the claimed iff. -/
theorem C2_counterexample :
    eNilData ∈ OfflineDb.GetSnapshotMediaEntries hubNilData.store 1 ∧
    eNilData.createdAt ≠ eNilData.updatedAt ∧
    remoteCallsOf (Hub.SyncListData hubNilData remoteOkAll).2.2 = [] := by
  decide

/-- Claim C2 as amended: SyncListData pushes a snapshot entry iff its
CreatedAt differs from its UpdatedAt and its decode yields list data
(one push per such entry, in store order); and when the candidate set is
empty the pass returns success with no remote calls, no events and no
state change. -/
theorem C2_candidates_pushed (cs : Option Snapshot) (sid : Nat)
    (entries : List SnapshotMediaEntry) (remote : Nat → Option String) :
    (remoteCallsOf (Hub.SyncListData ⟨false, cs, ⟨some ⟨sid, false, true⟩, entries⟩⟩
          remote).2.2).map (fun c => c.mediaId) =
      (OfflineDb.GetSnapshotMediaEntries ⟨some ⟨sid, false, true⟩, entries⟩ sid).filterMap
        (fun se => if se.createdAt != se.updatedAt then
          (decodeListData se).map (fun _ => se.mediaId) else none) ∧
    (syncCandidates ⟨some ⟨sid, false, true⟩, entries⟩ sid = [] →
      Hub.SyncListData ⟨false, cs, ⟨some ⟨sid, false, true⟩, entries⟩⟩ remote =
        (none, ⟨false, cs, ⟨some ⟨sid, false, true⟩, entries⟩⟩, [])) := by
  constructor
  · rw [sync_trace_calls, pushCalls, syncCandidates, List.map_filterMap, List.filterMap_filter]
    congr 1
    funext se
    split
    · rw [Option.map_map]
      rfl
    · rfl
  · intro hempty
    rw [syncCandidates] at hempty
    simp [Hub.SyncListData, OfflineDb.GetLatestSnapshot, hempty]

/-- Witness for the amended claim C2: an unmodified entry yields an
empty candidate set and the pass succeeds with no remote activity. -/
theorem C2_candidates_pushed_witness :
    syncCandidates ⟨some ⟨1, false, true⟩,
        [⟨100, 1, "anime", .animeVal ⟨some ldSample⟩, 3, 3⟩]⟩ 1 = [] ∧
    Hub.SyncListData ⟨false, none, ⟨some ⟨1, false, true⟩,
        [⟨100, 1, "anime", .animeVal ⟨some ldSample⟩, 3, 3⟩]⟩⟩ remoteOkAll =
      (none, ⟨false, none, ⟨some ⟨1, false, true⟩,
        [⟨100, 1, "anime", .animeVal ⟨some ldSample⟩, 3, 3⟩]⟩⟩, []) :=
  ⟨by decide, (C2_candidates_pushed none 1 _ remoteOkAll).2 (by decide)⟩

/-- Claim C4: the precondition checks of SyncListData run in order and
short-circuit.  Offline mode returns success immediately; a missing
latest snapshot fails with "no snapshot found"; a synced snapshot fails
with "data already synced"; an unused snapshot fails with "snapshot not
used".  In every case the hub state is unchanged and the trace is empty:
no remote call, no store mutation, no event. -/
theorem C4_preconditions (h : HubState) (remote : Nat → Option String) :
    (h.isOffline = true → Hub.SyncListData h remote = (none, h, [])) ∧
    (h.isOffline = false → OfflineDb.GetLatestSnapshot h.store = none →
      Hub.SyncListData h remote = (some "no snapshot found", h, [])) ∧
    (∀ it : SnapshotItem, h.isOffline = false →
      OfflineDb.GetLatestSnapshot h.store = some it → it.synced = true →
      Hub.SyncListData h remote = (some "data already synced", h, [])) ∧
    (∀ it : SnapshotItem, h.isOffline = false →
      OfflineDb.GetLatestSnapshot h.store = some it → it.synced = false → it.used = false →
      Hub.SyncListData h remote = (some "snapshot not used", h, [])) := by
  refine ⟨fun h1 => ?_, fun h1 h2 => ?_, fun it h1 h2 h3 => ?_, fun it h1 h2 h3 h4 => ?_⟩ <;>
    simp [Hub.SyncListData, *]

/-- Witness for claim C4: all four precondition exits, each evaluated at
a concrete hub state. -/
theorem C4_preconditions_witness :
    ((⟨true, none, ⟨none, []⟩⟩ : HubState).isOffline = true ∧
      Hub.SyncListData ⟨true, none, ⟨none, []⟩⟩ remoteOkAll =
        (none, ⟨true, none, ⟨none, []⟩⟩, [])) ∧
    Hub.SyncListData ⟨false, none, ⟨none, []⟩⟩ remoteOkAll =
      (some "no snapshot found", ⟨false, none, ⟨none, []⟩⟩, []) ∧
    Hub.SyncListData ⟨false, none, ⟨some ⟨1, true, true⟩, []⟩⟩ remoteOkAll =
      (some "data already synced", ⟨false, none, ⟨some ⟨1, true, true⟩, []⟩⟩, []) ∧
    Hub.SyncListData ⟨false, none, ⟨some ⟨1, false, false⟩, []⟩⟩ remoteOkAll =
      (some "snapshot not used", ⟨false, none, ⟨some ⟨1, false, false⟩, []⟩⟩, []) :=
  ⟨⟨rfl, (C4_preconditions _ _).1 rfl⟩,
    (C4_preconditions _ _).2.1 rfl rfl,
    (C4_preconditions _ _).2.2.1 _ rfl rfl rfl,
    (C4_preconditions _ _).2.2.2 _ rfl rfl rfl rfl⟩

/-- Claim C3: every remote push of the pass sends exactly ten times the
stored score of the entry it was built from (the multiplication happens
once per entry per pass, at push time); the pass never writes an entry
back to the store (every entry of the resulting store was already
present, unchanged, before the pass); and hence the pushes of a retry
pass again send ten times a score stored in the original store. -/
theorem C3_score_times_ten (h : HubState) (remote remote2 : Nat → Option String) :
    (∀ c ∈ remoteCallsOf (Hub.SyncListData h remote).2.2,
      ∃ se, se ∈ h.store.entries ∧ ∃ ld, decodeListData se = some ld ∧
        se.createdAt ≠ se.updatedAt ∧ c = mkCall se ld ∧ c.score = ld.score * 10) ∧
    (∀ se ∈ (Hub.SyncListData h remote).2.1.store.entries, se ∈ h.store.entries) ∧
    (∀ c ∈ remoteCallsOf
        (Hub.SyncListData (Hub.SyncListData h remote).2.1 remote2).2.2,
      ∃ se, se ∈ h.store.entries ∧ ∃ ld, decodeListData se = some ld ∧
        c.score = ld.score * 10) := by
  refine ⟨?_, sync_entries_subset h remote, ?_⟩
  · intro c hc
    obtain ⟨se, hmem, ld, hld, hne, hcall⟩ := sync_calls_sound h remote c hc
    refine ⟨se, hmem, ld, hld, hne, hcall, ?_⟩
    rw [hcall]
    rfl
  · intro c hc
    obtain ⟨se, hmem, ld, hld, hne, hcall⟩ :=
      sync_calls_sound (Hub.SyncListData h remote).2.1 remote2 c hc
    refine ⟨se, sync_entries_subset h remote se hmem, ld, hld, ?_⟩
    rw [hcall]
    rfl

/-- Witness for claim C3: the single failed push of the sample hub
carries score 70 for a stored score of 7. -/
theorem C3_score_times_ten_witness :
    (⟨100, "CURRENT", 70, 5, none, none⟩ : RemoteCall) ∈
      remoteCallsOf (Hub.SyncListData hubOne remoteFailAll).2.2 ∧
    ∃ se, se ∈ hubOne.store.entries ∧ ∃ ld, decodeListData se = some ld ∧
      se.createdAt ≠ se.updatedAt ∧
      (⟨100, "CURRENT", 70, 5, none, none⟩ : RemoteCall) = mkCall se ld ∧
      (⟨100, "CURRENT", 70, 5, none, none⟩ : RemoteCall).score = ld.score * 10 :=
  ⟨by decide, (C3_score_times_ten hubOne remoteFailAll remoteFailAll).1 _ (by decide)⟩

/-- Claim C5: when every push succeeds and the candidate set is
non-empty, the pass deletes the snapshot row and all of its entries from
the store, invokes the refresh-collections callback, publishes exactly
the two refresh events after the pushes, and returns success; the
snapshot is removed rather than ever being marked synced. -/
theorem C5_success_path (cs : Option Snapshot) (sid : Nat)
    (entries : List SnapshotMediaEntry) (remote : Nat → Option String)
    (hremote : remote = fun _ => none)
    (hne : syncCandidates ⟨some ⟨sid, false, true⟩, entries⟩ sid ≠ []) :
    Hub.SyncListData ⟨false, cs, ⟨some ⟨sid, false, true⟩, entries⟩⟩ remote =
      (none,
        ⟨false, cs, ⟨none, entries.filter (fun e => e.snapshotId != sid)⟩⟩,
        (pushCalls (syncCandidates ⟨some ⟨sid, false, true⟩, entries⟩ sid)).map
            Ev.remoteCall ++
          [Ev.refreshCollections, Ev.sendEvent "RefreshedAnilistCollection",
            Ev.sendEvent "RefreshedAnilistMangaCollection"]) := by
  subst hremote
  rw [syncCandidates] at hne
  have hE : ((OfflineDb.GetSnapshotMediaEntries ⟨some ⟨sid, false, true⟩, entries⟩ sid).filter
      (fun se => se.createdAt != se.updatedAt)).isEmpty = false := by
    cases hl : (OfflineDb.GetSnapshotMediaEntries ⟨some ⟨sid, false, true⟩, entries⟩ sid).filter
        (fun se => se.createdAt != se.updatedAt) with
    | nil => exact absurd hl hne
    | cons a l => rfl
  have herr := syncLoop_none ((OfflineDb.GetSnapshotMediaEntries
      ⟨some ⟨sid, false, true⟩, entries⟩ sid).filter
        (fun se => se.createdAt != se.updatedAt)) 0
  simp only [Hub.SyncListData, OfflineDb.GetLatestSnapshot]
  simp [hE, herr, syncLoop_calls, OfflineDb.DeleteSnapshot, syncCandidates, pushCalls]

/-- Witness for claim C5: the two-entry sample hub synchronises both
candidates and retires the snapshot. -/
theorem C5_success_path_witness :
    remoteOkAll = (fun _ => none) ∧
    syncCandidates ⟨some ⟨1, false, true⟩, [eAnime, eManga]⟩ 1 ≠ [] ∧
    Hub.SyncListData ⟨false, none, ⟨some ⟨1, false, true⟩, [eAnime, eManga]⟩⟩ remoteOkAll =
      (none,
        ⟨false, none, ⟨none, List.filter (fun e => e.snapshotId != 1) [eAnime, eManga]⟩⟩,
        (pushCalls (syncCandidates ⟨some ⟨1, false, true⟩, [eAnime, eManga]⟩ 1)).map
            Ev.remoteCall ++
          [Ev.refreshCollections, Ev.sendEvent "RefreshedAnilistCollection",
            Ev.sendEvent "RefreshedAnilistMangaCollection"]) :=
  ⟨rfl, by decide, C5_success_path none 1 [eAnime, eManga] remoteOkAll rfl (by decide)⟩

/-- Claim C6: for every candidate entry whose decode yields list data,
the pass performs a push whose start (resp. end) date argument is the
parsed RFC3339 `StartedAt` (resp. `CompletedAt`) when that string is
non-empty and parses, and is omitted (none) otherwise — an empty string
or a parse failure never aborts the push; and the round-trip examples:
"2022-05-01T00:00:00Z" parses to (2022, 5, 1), the empty string does not
parse. -/
theorem C6_dates (cs : Option Snapshot) (sid : Nat)
    (entries : List SnapshotMediaEntry) (remote : Nat → Option String)
    (se : SnapshotMediaEntry) (ld : ListData)
    (hse : se ∈ syncCandidates ⟨some ⟨sid, false, true⟩, entries⟩ sid)
    (hld : decodeListData se = some ld) :
    (∃ c ∈ remoteCallsOf (Hub.SyncListData ⟨false, cs, ⟨some ⟨sid, false, true⟩, entries⟩⟩
        remote).2.2,
      c.mediaId = se.mediaId ∧
      c.startDate = (if ld.startedAt != "" then parseRFC3339 ld.startedAt else none) ∧
      c.endDate = (if ld.completedAt != "" then parseRFC3339 ld.completedAt else none)) ∧
    parseRFC3339 "2022-05-01T00:00:00Z" = some ⟨2022, 5, 1⟩ ∧
    parseRFC3339 "" = none := by
  refine ⟨⟨mkCall se ld, ?_, rfl, rfl, rfl⟩, by decide, by decide⟩
  rw [sync_trace_calls, pushCalls, List.mem_filterMap]
  refine ⟨se, hse, ?_⟩
  rw [hld]
  rfl

/-- Witness for claim C6: the sample entry with a valid start date and a
malformed completion date is pushed with fuzzy date (2022, 5, 1) and no
end date. -/
theorem C6_dates_witness :
    eDates ∈ syncCandidates ⟨some ⟨1, false, true⟩, [eDates]⟩ 1 ∧
    decodeListData eDates = some ldDates ∧
    ((∃ c ∈ remoteCallsOf (Hub.SyncListData ⟨false, none, ⟨some ⟨1, false, true⟩, [eDates]⟩⟩
        remoteOkAll).2.2,
      c.mediaId = eDates.mediaId ∧
      c.startDate = (if ldDates.startedAt != "" then parseRFC3339 ldDates.startedAt else none) ∧
      c.endDate = (if ldDates.completedAt != "" then parseRFC3339 ldDates.completedAt else none)) ∧
    parseRFC3339 "2022-05-01T00:00:00Z" = some ⟨2022, 5, 1⟩ ∧
    parseRFC3339 "" = none) :=
  ⟨by decide, by decide,
    C6_dates none 1 [eDates] remoteOkAll eDates ldDates (by decide) (by decide)⟩

/-- Claim C7: a successful UpdateAnimeListStatus (isManga false) or
UpdateMangaListStatus (isManga true) rewrites exactly the target entry —
its ListData receives the given Progress and Status while Score,
StartedAt and CompletedAt keep their stored values and the row timestamp
is restamped — leaves every other entry of the store untouched, and
unconditionally reloads the cache, so that GetCurrentSnapshot afterwards
serves exactly the assembled latest snapshot of the store. -/
theorem C7_update_status_frame (isManga off b1 b2 : Bool) (sid : Nat)
    (csEntries pre post : List SnapshotMediaEntry) (se : SnapshotMediaEntry)
    (ld : ListData) (mid progress : Int) (status : String)
    (hpre : pre.all (fun x => !(x.mediaId == mid && x.snapshotId == sid)) = true)
    (hm : se.mediaId = mid) (hs : se.snapshotId = sid)
    (hv : se.value = (if isManga then EntryValue.mangaVal ⟨some ld⟩
      else EntryValue.animeVal ⟨some ld⟩)) :
    (if isManga then Hub.UpdateMangaListStatus else Hub.UpdateAnimeListStatus)
        ⟨off, some ⟨sid, csEntries⟩, ⟨some ⟨sid, b1, b2⟩, pre ++ se :: post⟩⟩
        mid progress status =
      (.ok,
        ⟨off,
          some ⟨sid, (pre ++ updatedStatusEntry isManga se ld progress status :: post).filter
            (fun e => e.snapshotId == sid)⟩,
          ⟨some ⟨sid, b1, b2⟩, pre ++ updatedStatusEntry isManga se ld progress status :: post⟩⟩,
        lockTrace) ∧
    (Hub.GetCurrentSnapshot
        ((if isManga then Hub.UpdateMangaListStatus else Hub.UpdateAnimeListStatus)
          ⟨off, some ⟨sid, csEntries⟩, ⟨some ⟨sid, b1, b2⟩, pre ++ se :: post⟩⟩
          mid progress status).2.1).1 =
      Hub.GetLatestSnapshot
        ((if isManga then Hub.UpdateMangaListStatus else Hub.UpdateAnimeListStatus)
          ⟨off, some ⟨sid, csEntries⟩, ⟨some ⟨sid, b1, b2⟩, pre ++ se :: post⟩⟩
          mid progress status).2.1.store := by
  subst hm
  subst hs
  have hfind : (pre ++ se :: post).find?
      (fun e => e.mediaId == se.mediaId && e.snapshotId == se.snapshotId) = some se :=
    find_append_first _ pre post se hpre (by simp)
  have hmain :
      (if isManga then Hub.UpdateMangaListStatus else Hub.UpdateAnimeListStatus)
          ⟨off, some ⟨se.snapshotId, csEntries⟩,
            ⟨some ⟨se.snapshotId, b1, b2⟩, pre ++ se :: post⟩⟩
          se.mediaId progress status =
        (.ok,
          ⟨off,
            some ⟨se.snapshotId,
              (pre ++ updatedStatusEntry isManga se ld progress status :: post).filter
                (fun e => e.snapshotId == se.snapshotId)⟩,
            ⟨some ⟨se.snapshotId, b1, b2⟩,
              pre ++ updatedStatusEntry isManga se ld progress status :: post⟩⟩,
          lockTrace) := by
    cases isManga with
    | false =>
      simp only [Bool.false_eq_true, if_false] at hv ⊢
      have hrepl := replaceEntry_append
        ({ se with value := EntryValue.animeVal ⟨some { ld with progress := progress, status := status }⟩ })
        pre post se (by simpa using hpre) (by simp)
      simp [Hub.UpdateAnimeListStatus, Hub.UpdateAnimeListStatusBody, Hub.ensureSnapshot,
        OfflineDb.GetSnapshotMediaEntry, hfind, SnapshotMediaEntry.GetAnimeEntry, hv,
        OfflineDb.UpdateSnapshotMediaEntryT, hrepl, Hub.reloadTail, Hub.GetLatestSnapshot,
        OfflineDb.GetLatestSnapshot, OfflineDb.GetSnapshotMediaEntries,
        updatedStatusEntry, OfflineDb.stampUpdated]
    | true =>
      simp only [if_true] at hv ⊢
      have hrepl := replaceEntry_append
        ({ se with value := EntryValue.mangaVal ⟨some { ld with progress := progress, status := status }⟩ })
        pre post se (by simpa using hpre) (by simp)
      simp [Hub.UpdateMangaListStatus, Hub.UpdateMangaListStatusBody, Hub.ensureSnapshot,
        OfflineDb.GetSnapshotMediaEntry, hfind, SnapshotMediaEntry.GetMangaEntry, hv,
        OfflineDb.UpdateSnapshotMediaEntryT, hrepl, Hub.reloadTail, Hub.GetLatestSnapshot,
        OfflineDb.GetLatestSnapshot, OfflineDb.GetSnapshotMediaEntries,
        updatedStatusEntry, OfflineDb.stampUpdated]
  refine ⟨hmain, ?_⟩
  rw [hmain]
  rfl

/-- Witness for claim C7: updating media 100 of the one-entry sample
store to progress 8, status COMPLETED. -/
theorem C7_update_status_frame_witness :
    ([] : List SnapshotMediaEntry).all
        (fun x => !(x.mediaId == (100 : Int) && x.snapshotId == (1 : Nat))) = true ∧
    eAnime.mediaId = (100 : Int) ∧
    eAnime.snapshotId = (1 : Nat) ∧
    eAnime.value = (if false then EntryValue.mangaVal ⟨some ldSample⟩
      else EntryValue.animeVal ⟨some ldSample⟩) ∧
    ((if false then Hub.UpdateMangaListStatus else Hub.UpdateAnimeListStatus)
        ⟨false, some ⟨1, []⟩, ⟨some ⟨1, false, true⟩, [] ++ eAnime :: []⟩⟩ 100 8 "COMPLETED" =
      (.ok,
        ⟨false,
          some ⟨1, ([] ++ updatedStatusEntry false eAnime ldSample 8 "COMPLETED" :: []).filter
            (fun e => e.snapshotId == 1)⟩,
          ⟨some ⟨1, false, true⟩,
            [] ++ updatedStatusEntry false eAnime ldSample 8 "COMPLETED" :: []⟩⟩,
        lockTrace) ∧
    (Hub.GetCurrentSnapshot
        ((if false then Hub.UpdateMangaListStatus else Hub.UpdateAnimeListStatus)
          ⟨false, some ⟨1, []⟩, ⟨some ⟨1, false, true⟩, [] ++ eAnime :: []⟩⟩
          100 8 "COMPLETED").2.1).1 =
      Hub.GetLatestSnapshot
        ((if false then Hub.UpdateMangaListStatus else Hub.UpdateAnimeListStatus)
          ⟨false, some ⟨1, []⟩, ⟨some ⟨1, false, true⟩, [] ++ eAnime :: []⟩⟩
          100 8 "COMPLETED").2.1.store) :=
  ⟨by decide, by decide, by decide, by decide,
    C7_update_status_frame false false false true 1 [] [] [] eAnime ldSample 100 8 "COMPLETED"
      (by decide) (by decide) (by decide) (by decide)⟩

/-- Claim C8, counterexample: a sync pass that performs a remote push
produces a trace containing no mutex acquisition at all — SyncListData
does not take the Hub lock. -/
theorem C8_counterexample :
    Ev.remoteCall ⟨100, "CURRENT", 70, 5, none, none⟩ ∈
      (Hub.SyncListData hubOne remoteOkAll).2.2 ∧
    (Hub.SyncListData hubOne remoteOkAll).2.2.count Ev.lockAcquire = 0 := by
  decide

/-- Claim C8 as amended: GetCurrentSnapshot, RetrieveCurrentSnapshot and
the three update operations each hold the single Hub mutex for their
entire body (their traces begin with the acquisition and end with the
release); SyncListData, however, never acquires or releases the lock, so
the mutual-exclusion guarantee does not extend to the sync pass. -/
theorem C8_lock_discipline :
    (∀ h : HubState, (Hub.GetCurrentSnapshot h).2.head? = some Ev.lockAcquire ∧
      (Hub.GetCurrentSnapshot h).2.getLast? = some Ev.lockRelease) ∧
    (∀ h : HubState, (Hub.RetrieveCurrentSnapshot h).2.2.head? = some Ev.lockAcquire ∧
      (Hub.RetrieveCurrentSnapshot h).2.2.getLast? = some Ev.lockRelease) ∧
    (∀ (h : HubState) (mid p : Int) (st : String),
      (Hub.UpdateAnimeListStatus h mid p st).2.2.head? = some Ev.lockAcquire ∧
      (Hub.UpdateAnimeListStatus h mid p st).2.2.getLast? = some Ev.lockRelease) ∧
    (∀ (h : HubState) (mid p : Int) (st : String),
      (Hub.UpdateMangaListStatus h mid p st).2.2.head? = some Ev.lockAcquire ∧
      (Hub.UpdateMangaListStatus h mid p st).2.2.getLast? = some Ev.lockRelease) ∧
    (∀ (h : HubState) (mediaId : Option Int) (status : Option String)
        (score progress : Option Int) (startDate endDate : Option String) (t : String),
      (Hub.UpdateEntryListData h mediaId status score progress startDate endDate t).2.2.head? =
          some Ev.lockAcquire ∧
        (Hub.UpdateEntryListData h mediaId status score progress startDate endDate t).2.2.getLast? =
          some Ev.lockRelease) ∧
    (∀ (h : HubState) (remote : Nat → Option String),
      (Hub.SyncListData h remote).2.2.count Ev.lockAcquire = 0 ∧
      (Hub.SyncListData h remote).2.2.count Ev.lockRelease = 0) := by
  refine ⟨fun h => ⟨rfl, rfl⟩, fun h => ⟨rfl, rfl⟩, fun h mid p st => ⟨rfl, rfl⟩,
    fun h mid p st => ⟨rfl, rfl⟩, fun h mediaId status score progress sd ed t => ⟨rfl, rfl⟩,
    fun h remote => ⟨?_, ?_⟩⟩ <;>
  · rw [List.count_eq_zero]
    intro hmem
    rcases sync_trace_shape h remote _ hmem with he | ⟨c, he⟩ | ⟨n, he⟩ <;> exact Ev.noConfusion he

/-- Claim C9: UpdateEntryListData dereferences its mediaId pointer
before any validation, so a nil mediaId always panics, for any values of
the other parameters; with a non-nil mediaId and all optional field
parameters nil the operation never panics. -/
theorem C9_media_id_required :
    (∀ (h : HubState) (status : Option String) (score progress : Option Int)
        (startDate endDate : Option String) (t : String),
      Hub.UpdateEntryListData h none status score progress startDate endDate t =
        (.panicked, h, lockTrace)) ∧
    (∀ (h : HubState) (mid : Int) (t : String),
      (Hub.UpdateEntryListData h (some mid) none none none none none t).1 ≠
        GoRes.panicked) := by
  constructor
  · intro h status score progress startDate endDate t
    rfl
  · intro h mid t
    simp only [Hub.UpdateEntryListData, Hub.UpdateEntryListDataBody]
    split
    · simp
    split
    · simp
    split
    · split
      · simp
      · simp [applyListDataFields_all_none, reloadTail_ne_panicked]
    · split
      · simp
      · simp [applyListDataFields_all_none, reloadTail_ne_panicked]
    · simp [reloadTail_ne_panicked]

/-- Witness for claim C9: the sample hub panics on a nil media id and
does not panic on media id 100 with all optional fields nil. -/
theorem C9_media_id_required_witness :
    Hub.UpdateEntryListData hubOne none none none none none none "anime" =
      (.panicked, hubOne, lockTrace) ∧
    (Hub.UpdateEntryListData hubOne (some 100) none none none none none "anime").1 ≠
      GoRes.panicked :=
  ⟨C9_media_id_required.1 hubOne none none none none none "anime",
    C9_media_id_required.2 hubOne 100 "anime"⟩

/-- Claim C10: for any media type string other than "anime" and "manga"
the switch of UpdateEntryListData matches no case: the operation returns
success without writing anything to the store — whatever the entry row
holds, no decode failure and no entry-not-found error is possible — and
its only effect is reloading the cached snapshot from the store. -/
theorem C10_unknown_media_type (off b1 b2 : Bool) (sid : Nat)
    (entries : List SnapshotMediaEntry) (mid : Int)
    (status : Option String) (score progress : Option Int)
    (startDate endDate : Option String) (t : String) (se : SnapshotMediaEntry)
    (ht1 : t ≠ "anime") (ht2 : t ≠ "manga")
    (hfind : entries.find? (fun e => e.mediaId == mid && e.snapshotId == sid) = some se) :
    Hub.UpdateEntryListData ⟨off, none, ⟨some ⟨sid, b1, b2⟩, entries⟩⟩ (some mid)
        status score progress startDate endDate t =
      (.ok, ⟨off, some ⟨sid, entries.filter (fun e => e.snapshotId == sid)⟩,
        ⟨some ⟨sid, b1, b2⟩, entries⟩⟩, lockTrace) := by
  simp only [Hub.UpdateEntryListData, Hub.UpdateEntryListDataBody, Hub.ensureSnapshot,
    Hub.GetLatestSnapshot, OfflineDb.GetLatestSnapshot, OfflineDb.GetSnapshotMediaEntries,
    OfflineDb.GetSnapshotMediaEntry, Option.map_some', hfind]
  simp [Hub.reloadTail, Hub.GetLatestSnapshot, OfflineDb.GetLatestSnapshot,
    OfflineDb.GetSnapshotMediaEntries]

/-- Witness for claim C10: media type "movie" leaves the one-entry store
unchanged and reloads the cache. -/
theorem C10_unknown_media_type_witness :
    ("movie" : String) ≠ "anime" ∧ ("movie" : String) ≠ "manga" ∧
    [eAnime].find? (fun e => e.mediaId == (100 : Int) && e.snapshotId == (1 : Nat)) =
      some eAnime ∧
    Hub.UpdateEntryListData ⟨false, none, ⟨some ⟨1, false, true⟩, [eAnime]⟩⟩ (some 100)
        none none none none none "movie" =
      (.ok, ⟨false, some ⟨1, [eAnime].filter (fun e => e.snapshotId == 1)⟩,
        ⟨some ⟨1, false, true⟩, [eAnime]⟩⟩, lockTrace) :=
  ⟨by decide, by decide, by decide,
    C10_unknown_media_type false false true 1 [eAnime] 100 none none none none none
      "movie" eAnime (by decide) (by decide) (by decide)⟩

end Offline
